import Mathlib

/-!
Shallow embedding of src/server.js (Casino-2): a balance-ledger HTTP service.
The persisted store maps usernames to player records (balance plus history).
Each HTTP handler reloads the store, applies one mutation and writes the
whole store back.  We model the store as an association list (mirroring a JS
object: assignment to a fresh key appends it, assignment to an existing key
updates it in place), each handler as a pure function from the loaded store
and the raw request fields to the response, the new store contents, and a
flag recording whether saveData was invoked during the call.
-/

/-- One entry of a player's audit history (src/server.js appendHistory calls). -/
structure HistoryEntry where
  ts : String
  game : String
  delta : Int
  desc : String
deriving Repr, DecidableEq

/-- A player record: integer balance plus ordered history. -/
structure Player where
  balance : Int
  history : List HistoryEntry
deriving Repr, DecidableEq

/-- The persisted store: the JS object data.players, as an association list. -/
structure Store where
  players : List (String × Player)
deriving Repr, DecidableEq

/-- Reading data.players[username] in JS: the value at the key, if present. -/
def lookupPlayer (s : Store) (u : String) : Option Player :=
  (s.players.find? (fun kv => kv.1 = u)).map (fun kv => kv.2)

/-- Assignment data.players[username] = p in JS: update the key in place when
present, append it when absent. -/
def setPlayer (s : Store) (u : String) (p : Player) : Store :=
  if s.players.any (fun kv => kv.1 = u) then
    ⟨s.players.map (fun kv => if kv.1 = u then (u, p) else kv)⟩
  else
    ⟨s.players ++ [(u, p)]⟩

/-- Deletion in JS (delete data.players[username]): remove the key. -/
def removePlayer (s : Store) (u : String) : Store :=
  ⟨s.players.filter (fun kv => ¬ kv.1 = u)⟩

/-- appendHistory (src/server.js lines 53-55): push one entry onto the
player's history. -/
def appendHistory (p : Player) (e : HistoryEntry) : Player :=
  { p with history := p.history ++ [e] }

/-- The synthetic history entry written at lazy player creation. -/
def creationEntry (ts : String) : HistoryEntry :=
  { ts := ts, game := "system", delta := 0, desc := "auto-created profile" }

/-- The record a fresh player holds right after getOrCreatePlayer made it. -/
def defaultPlayer (ts : String) : Player :=
  appendHistory { balance := 1000, history := [] } (creationEntry ts)

/-- getOrCreatePlayer (src/server.js lines 36-51): return the stored record
when present; otherwise create the default record, store it and persist.
Result: the record, the store after the call, and whether saveData ran. -/
def getOrCreatePlayer (s : Store) (u : String) (ts : String) :
    Player × Store × Bool :=
  match lookupPlayer s u with
  | some p => (p, s, false)
  | none =>
      let p := defaultPlayer ts
      (p, setPlayer s u p, true)

/-- Accumulate decimal digits, as JS parseInt does on the digit prefix. -/
def digitsToNat (ds : List Char) : Nat :=
  ds.foldl (fun acc c => acc * 10 + (c.toNat - 48)) 0

/-- JS parseInt(value, 10) on a string: skip leading whitespace, read an
optional sign, then the longest prefix of decimal digits; NaN (here none)
when that prefix is empty. -/
def parseIntBase10 (s : String) : Option Int :=
  let cs := s.data.dropWhile (fun c => c.isWhitespace)
  let signAndRest : Int × List Char :=
    match cs with
    | c :: t => if c = '-' then (-1, t) else if c = '+' then (1, t) else (1, cs)
    | [] => (1, [])
  let ds := signAndRest.2.takeWhile (fun c => c.isDigit)
  if ds.isEmpty then none
  else some (signAndRest.1 * (digitsToNat ds : Int))

/-- parseInteger (src/server.js lines 65-68): parseInt base 10, with NaN
mapped to null (here none). -/
def parseInteger (v : String) : Option Int :=
  parseIntBase10 v

/-- Response bodies the handlers produce (the JSON payload shapes). -/
inductive Body where
  | okUnit : Body
  | okBalance (balance : Int) : Body
  | okProfile (username : String) (balance : Int) : Body
  | okDetail (username : String) (balance : Int)
      (history : List HistoryEntry) : Body
  | okUsers (users : List (String × Int)) : Body
  | errBody (error : String) : Body
deriving Repr, DecidableEq

/-- An HTTP response: status code plus JSON body. res.json defaults to 200. -/
structure Response where
  status : Nat
  body : Body
deriving Repr, DecidableEq

/-- A handler outcome: the response, the backing-file contents after the
call, and whether saveData was invoked during the call. -/
structure Outcome where
  resp : Response
  store : Store
  persisted : Bool
deriving Repr, DecidableEq

/-- JS String.prototype.trim: strip whitespace from both ends. -/
def trimString (s : String) : String :=
  ⟨((s.data.dropWhile (fun c => c.isWhitespace)).reverse.dropWhile
      (fun c => c.isWhitespace)).reverse⟩

/-- The JS idiom (x || d).trim() on an optional string field. -/
def trimmedField (v : Option String) : String :=
  trimString (v.getD "")

/-- The JS idiom (x || d).trim() || fallback: the trimmed field, or the
fallback when that is empty. -/
def fieldOr (v : Option String) (fallback : String) : String :=
  let t := trimmedField v
  if t = "" then fallback else t

/-- Core of POST /api/game/charge after validation (src/server.js lines
118-132): refuse when balance would go negative, else debit, append the
entry and persist. -/
def chargeCore (s : Store) (u g : String) (a : Int) (d ts : String) : Outcome :=
  let r := getOrCreatePlayer s u ts
  let player := r.1
  if player.balance - a < 0 then
    ⟨⟨200, Body.errBody "INSUFFICIENT_FUNDS"⟩, r.2.1, r.2.2⟩
  else
    let p2 := appendHistory { player with balance := player.balance - a }
      { ts := ts, game := g, delta := -a, desc := d }
    ⟨⟨200, Body.okBalance p2.balance⟩, setPlayer r.2.1 u p2, true⟩

/-- POST /api/game/charge (src/server.js lines 105-133): validate username
and amount, then run the charge core. -/
def chargeHandler (s : Store) (username? game? amount? desc? : Option String)
    (ts : String) : Outcome :=
  let username := trimmedField username?
  let game := fieldOr game? "unknown"
  let amountValue := parseInteger ((amount?).getD "")
  let desc := fieldOr desc? "game charge"
  if username = "" then
    ⟨⟨400, Body.errBody "USERNAME_REQUIRED"⟩, s, false⟩
  else
    match amountValue with
    | none => ⟨⟨400, Body.errBody "INVALID_AMOUNT"⟩, s, false⟩
    | some a =>
        if a ≤ 0 then ⟨⟨400, Body.errBody "INVALID_AMOUNT"⟩, s, false⟩
        else chargeCore s username game a desc ts

/-- Core of POST /api/game/payout after validation (src/server.js lines
148-158): credit unconditionally, append the entry and persist. -/
def payoutCore (s : Store) (u g : String) (a : Int) (d ts : String) : Outcome :=
  let r := getOrCreatePlayer s u ts
  let player := r.1
  let p2 := appendHistory { player with balance := player.balance + a }
    { ts := ts, game := g, delta := a, desc := d }
  ⟨⟨200, Body.okBalance p2.balance⟩, setPlayer r.2.1 u p2, true⟩

/-- POST /api/game/payout (src/server.js lines 135-159). -/
def payoutHandler (s : Store) (username? game? amount? desc? : Option String)
    (ts : String) : Outcome :=
  let username := trimmedField username?
  let game := fieldOr game? "unknown"
  let amountValue := parseInteger ((amount?).getD "")
  let desc := fieldOr desc? "game payout"
  if username = "" then
    ⟨⟨400, Body.errBody "USERNAME_REQUIRED"⟩, s, false⟩
  else
    match amountValue with
    | none => ⟨⟨400, Body.errBody "INVALID_AMOUNT"⟩, s, false⟩
    | some a =>
        if a ≤ 0 then ⟨⟨400, Body.errBody "INVALID_AMOUNT"⟩, s, false⟩
        else payoutCore s username game a desc ts

/-- Core of POST /api/profile/save after validation (src/server.js lines
92-102): overwrite the balance, append a manual-save entry, persist. -/
def saveCore (s : Store) (u : String) (b : Int) (ts : String) : Outcome :=
  let r := getOrCreatePlayer s u ts
  let p2 := appendHistory { r.1 with balance := b }
    { ts := ts, game := "manual-save", delta := 0, desc := "session save" }
  ⟨⟨200, Body.okUnit⟩, setPlayer r.2.1 u p2, true⟩

/-- POST /api/profile/save (src/server.js lines 81-103). -/
def saveHandler (s : Store) (username? balance? : Option String)
    (ts : String) : Outcome :=
  let username := trimmedField username?
  let balanceValue := parseInteger ((balance?).getD "")
  if username = "" then
    ⟨⟨400, Body.errBody "USERNAME_REQUIRED"⟩, s, false⟩
  else
    match balanceValue with
    | none => ⟨⟨400, Body.errBody "INVALID_BALANCE"⟩, s, false⟩
    | some b =>
        if b < 0 then ⟨⟨400, Body.errBody "INVALID_BALANCE"⟩, s, false⟩
        else saveCore s username b ts

/-- Core of POST /api/admin/set-balance after validation (src/server.js
lines 198-209): record delta = newBalance - balance, overwrite, persist. -/
def setBalanceCore (s : Store) (u : String) (b : Int) (note ts : String) :
    Outcome :=
  let r := getOrCreatePlayer s u ts
  let player := r.1
  let delta := b - player.balance
  let p2 := appendHistory { player with balance := b }
    { ts := ts, game := "admin-adjust", delta := delta, desc := note }
  ⟨⟨200, Body.okBalance p2.balance⟩, setPlayer r.2.1 u p2, true⟩

/-- POST /api/admin/set-balance (src/server.js lines 186-210). -/
def setBalanceHandler (s : Store) (username? balance? note? : Option String)
    (ts : String) : Outcome :=
  let username := trimmedField username?
  let balanceValue := parseInteger ((balance?).getD "")
  let note := fieldOr note? "admin adjustment"
  if username = "" then
    ⟨⟨400, Body.errBody "USERNAME_REQUIRED"⟩, s, false⟩
  else
    match balanceValue with
    | none => ⟨⟨400, Body.errBody "INVALID_BALANCE"⟩, s, false⟩
    | some b =>
        if b < 0 then ⟨⟨400, Body.errBody "INVALID_BALANCE"⟩, s, false⟩
        else setBalanceCore s username b note ts

/-- POST /api/admin/delete-user (src/server.js lines 212-223): remove the
record and persist when present; silent success when absent. -/
def deleteUserHandler (s : Store) (username? : Option String) : Outcome :=
  let username := trimmedField username?
  if username = "" then
    ⟨⟨400, Body.errBody "USERNAME_REQUIRED"⟩, s, false⟩
  else if (lookupPlayer s username).isSome then
    ⟨⟨200, Body.okUnit⟩, removePlayer s username, true⟩
  else
    ⟨⟨200, Body.okUnit⟩, s, false⟩

/-- GET /api/admin/user-detail (src/server.js lines 170-184): get-or-create
the player, persist, and return the full record including history. -/
def userDetailHandler (s : Store) (username? : Option String)
    (ts : String) : Outcome :=
  let username := trimmedField username?
  if username = "" then
    ⟨⟨400, Body.errBody "USERNAME_REQUIRED"⟩, s, false⟩
  else
    let r := getOrCreatePlayer s username ts
    ⟨⟨200, Body.okDetail username r.1.balance r.1.history⟩, r.2.1, true⟩

/-- GET /api/profile (src/server.js lines 70-79): get-or-create, persist,
return username and balance. -/
def profileHandler (s : Store) (username? : Option String)
    (ts : String) : Outcome :=
  let username := trimmedField username?
  if username = "" then
    ⟨⟨400, Body.errBody "USERNAME_REQUIRED"⟩, s, false⟩
  else
    let r := getOrCreatePlayer s username ts
    ⟨⟨200, Body.okProfile username r.1.balance⟩, r.2.1, true⟩

/-- GET /api/admin/users (src/server.js lines 161-168): list (username,
balance) pairs, history excluded. -/
def listUsersHandler (s : Store) : Outcome :=
  ⟨⟨200, Body.okUsers (s.players.map (fun kv => (kv.1, kv.2.balance)))⟩,
    s, false⟩

/-- Every player stored has a non-negative balance. -/
def allNonneg (s : Store) : Prop :=
  ∀ kv ∈ s.players, 0 ≤ (kv.2).balance

instance (s : Store) : Decidable (allNonneg s) := by
  unfold allNonneg
  infer_instance

/-- One committed mutation request, with its raw request fields. -/
inductive Op where
  | charge (username? game? amount? desc? : Option String) (ts : String) : Op
  | save (username? balance? : Option String) (ts : String) : Op
  | payout (username? game? amount? desc? : Option String) (ts : String) : Op
  | setBalance (username? balance? note? : Option String) (ts : String) : Op
deriving Repr, DecidableEq

/-- The store left behind by one request, whatever its outcome. -/
def applyOp (s : Store) (op : Op) : Store :=
  match op with
  | Op.charge u? g? a? d? ts => (chargeHandler s u? g? a? d? ts).store
  | Op.save u? b? ts => (saveHandler s u? b? ts).store
  | Op.payout u? g? a? d? ts => (payoutHandler s u? g? a? d? ts).store
  | Op.setBalance u? b? n? ts => (setBalanceHandler s u? b? n? ts).store

/-- The store after a whole sequence of requests. -/
def applyOps (s : Store) (ops : List Op) : Store :=
  ops.foldl applyOp s

/-! ### Association-list lemmas about the store operations -/

theorem find?_map_update (l : List (String × Player)) (u : String) (p : Player)
    (h : l.any (fun kv => kv.1 = u) = true) :
    (l.map (fun kv => if kv.1 = u then (u, p) else kv)).find?
      (fun kv => kv.1 = u) = some (u, p) := by
  induction l with
  | nil => simp at h
  | cons kv t ih =>
      by_cases hk : kv.1 = u
      · simp [List.find?_cons, hk]
      · have h2 : t.any (fun kv => kv.1 = u) = true := by
          simpa [List.any_cons, hk] using h
        simp [List.find?_cons, hk, ih h2]

theorem find?_append_single (l : List (String × Player)) (u : String)
    (p : Player) (h : ∀ kv ∈ l, ¬ kv.1 = u) :
    (l ++ [(u, p)]).find? (fun kv => kv.1 = u) = some (u, p) := by
  induction l with
  | nil => simp [List.find?_cons]
  | cons kv t ih =>
      have hk : ¬ kv.1 = u := h kv (by simp)
      have h2 : ∀ kv ∈ t, ¬ kv.1 = u := fun x hx => h x (by simp [hx])
      simp [List.find?_cons, hk, ih h2]

/-- Writing a player under a key makes it the value read back at that key. -/
theorem lookupPlayer_setPlayer_self (s : Store) (u : String) (p : Player) :
    lookupPlayer (setPlayer s u p) u = some p := by
  unfold lookupPlayer setPlayer
  by_cases hany : s.players.any (fun kv => kv.1 = u) = true
  · simp [hany, find?_map_update s.players u p hany]
  · have hall : ∀ kv ∈ s.players, ¬ kv.1 = u := by
      intro x hx hEq
      exact hany (List.any_eq_true.mpr ⟨x, hx, by simpa using hEq⟩)
    simp [hany, find?_append_single s.players u p hall]

/-- After removePlayer the key reads back as absent. -/
theorem lookupPlayer_removePlayer_self (s : Store) (u : String) :
    lookupPlayer (removePlayer s u) u = none := by
  unfold lookupPlayer removePlayer
  have h : (s.players.filter (fun kv => ¬ kv.1 = u)).find?
      (fun kv => kv.1 = u) = none := by
    apply List.find?_eq_none.mpr
    intro x hx
    have := List.of_mem_filter hx
    simpa using this
  simp [h]

/-- getOrCreatePlayer on a present key returns the stored record, leaves the
store alone and does not persist. -/
theorem getOrCreatePlayer_present (s : Store) (u ts : String) (p : Player)
    (h : lookupPlayer s u = some p) :
    getOrCreatePlayer s u ts = (p, s, false) := by
  simp [getOrCreatePlayer, h]

/-- getOrCreatePlayer on an absent key returns the default record, stores it
and persists. -/
theorem getOrCreatePlayer_absent (s : Store) (u ts : String)
    (h : lookupPlayer s u = none) :
    getOrCreatePlayer s u ts =
      (defaultPlayer ts, setPlayer s u (defaultPlayer ts), true) := by
  simp [getOrCreatePlayer, h]

/-! ### Balance non-negativity machinery -/

theorem allNonneg_setPlayer (s : Store) (u : String) (p : Player)
    (hs : allNonneg s) (hp : 0 ≤ p.balance) : allNonneg (setPlayer s u p) := by
  unfold setPlayer
  by_cases hany : s.players.any (fun kv => kv.1 = u) = true
  · rw [if_pos hany]
    intro kv hkv
    rcases List.mem_map.mp hkv with ⟨kv0, h0, hEq⟩
    by_cases hk : kv0.1 = u
    · rw [if_pos hk] at hEq
      rw [← hEq]
      exact hp
    · rw [if_neg hk] at hEq
      rw [← hEq]
      exact hs kv0 h0
  · rw [if_neg hany]
    intro kv hkv
    rcases List.mem_append.mp hkv with h0 | h0
    · exact hs kv h0
    · have : kv = (u, p) := by simpa using h0
      rw [this]
      exact hp

theorem balance_nonneg_of_lookup (s : Store) (u : String) (p : Player)
    (hs : allNonneg s) (h : lookupPlayer s u = some p) : 0 ≤ p.balance := by
  unfold lookupPlayer at h
  cases hf : s.players.find? (fun kv => kv.1 = u) with
  | none => rw [hf] at h; exact Option.noConfusion h
  | some kv =>
      rw [hf] at h
      have h2 : kv.2 = p := Option.some.inj h
      have hmem := List.mem_of_find?_eq_some hf
      rw [← h2]
      exact hs kv hmem

theorem getOrCreatePlayer_store_nonneg (s : Store) (u ts : String)
    (hs : allNonneg s) : allNonneg (getOrCreatePlayer s u ts).2.1 := by
  unfold getOrCreatePlayer
  cases h : lookupPlayer s u with
  | some p => exact hs
  | none =>
      have hb : (defaultPlayer ts).balance = 1000 := rfl
      exact allNonneg_setPlayer s u _ hs (by rw [hb]; decide)

theorem getOrCreatePlayer_balance_nonneg (s : Store) (u ts : String)
    (hs : allNonneg s) : 0 ≤ (getOrCreatePlayer s u ts).1.balance := by
  unfold getOrCreatePlayer
  cases h : lookupPlayer s u with
  | some p => exact balance_nonneg_of_lookup s u p hs h
  | none =>
      have hb : (defaultPlayer ts).balance = 1000 := rfl
      simp only [hb]
      decide

theorem chargeCore_allNonneg (s : Store) (u g : String) (a : Int)
    (d ts : String) (hs : allNonneg s) :
    allNonneg (chargeCore s u g a d ts).store := by
  unfold chargeCore
  dsimp only
  split
  · exact getOrCreatePlayer_store_nonneg s u ts hs
  · next hnot =>
      apply allNonneg_setPlayer _ _ _ (getOrCreatePlayer_store_nonneg s u ts hs)
      have : (0 : Int) ≤ (getOrCreatePlayer s u ts).1.balance - a :=
        Int.not_lt.mp hnot
      simpa [appendHistory] using this

theorem payoutCore_allNonneg (s : Store) (u g : String) (a : Int)
    (d ts : String) (hs : allNonneg s) (ha : 0 ≤ a) :
    allNonneg (payoutCore s u g a d ts).store := by
  unfold payoutCore
  apply allNonneg_setPlayer _ _ _ (getOrCreatePlayer_store_nonneg s u ts hs)
  have hb := getOrCreatePlayer_balance_nonneg s u ts hs
  simp only [appendHistory]
  omega

theorem saveCore_allNonneg (s : Store) (u : String) (b : Int) (ts : String)
    (hs : allNonneg s) (hb : 0 ≤ b) :
    allNonneg (saveCore s u b ts).store := by
  unfold saveCore
  apply allNonneg_setPlayer _ _ _ (getOrCreatePlayer_store_nonneg s u ts hs)
  simpa [appendHistory] using hb

theorem setBalanceCore_allNonneg (s : Store) (u : String) (b : Int)
    (note ts : String) (hs : allNonneg s) (hb : 0 ≤ b) :
    allNonneg (setBalanceCore s u b note ts).store := by
  unfold setBalanceCore
  apply allNonneg_setPlayer _ _ _ (getOrCreatePlayer_store_nonneg s u ts hs)
  simpa [appendHistory] using hb

theorem chargeHandler_allNonneg (s : Store) (u? g? a? d? : Option String)
    (ts : String) (hs : allNonneg s) :
    allNonneg (chargeHandler s u? g? a? d? ts).store := by
  unfold chargeHandler
  dsimp only
  split
  · exact hs
  · split
    · exact hs
    · split
      · exact hs
      · exact chargeCore_allNonneg _ _ _ _ _ _ hs

theorem payoutHandler_allNonneg (s : Store) (u? g? a? d? : Option String)
    (ts : String) (hs : allNonneg s) :
    allNonneg (payoutHandler s u? g? a? d? ts).store := by
  unfold payoutHandler
  dsimp only
  split
  · exact hs
  · split
    · exact hs
    · split
      · exact hs
      · next h => exact payoutCore_allNonneg _ _ _ _ _ _ hs (by omega)

theorem saveHandler_allNonneg (s : Store) (u? b? : Option String)
    (ts : String) (hs : allNonneg s) :
    allNonneg (saveHandler s u? b? ts).store := by
  unfold saveHandler
  dsimp only
  split
  · exact hs
  · split
    · exact hs
    · split
      · exact hs
      · next h => exact saveCore_allNonneg _ _ _ _ hs (by omega)

theorem setBalanceHandler_allNonneg (s : Store) (u? b? n? : Option String)
    (ts : String) (hs : allNonneg s) :
    allNonneg (setBalanceHandler s u? b? n? ts).store := by
  unfold setBalanceHandler
  dsimp only
  split
  · exact hs
  · split
    · exact hs
    · split
      · exact hs
      · next h => exact setBalanceCore_allNonneg _ _ _ _ _ hs (by omega)

theorem applyOp_allNonneg (s : Store) (op : Op) (hs : allNonneg s) :
    allNonneg (applyOp s op) := by
  cases op with
  | charge u? g? a? d? ts => exact chargeHandler_allNonneg s u? g? a? d? ts hs
  | save u? b? ts => exact saveHandler_allNonneg s u? b? ts hs
  | payout u? g? a? d? ts => exact payoutHandler_allNonneg s u? g? a? d? ts hs
  | setBalance u? b? n? ts => exact setBalanceHandler_allNonneg s u? b? n? ts hs

theorem applyOps_allNonneg (s : Store) (ops : List Op) (hs : allNonneg s) :
    allNonneg (applyOps s ops) := by
  induction ops generalizing s with
  | nil => exact hs
  | cons op t ih => exact ih (applyOp s op) (applyOp_allNonneg s op hs)

/-! ### Characterizations of the cores and handlers -/

theorem chargeCore_present_refused (s : Store) (u g : String) (a : Int)
    (d ts : String) (p : Player) (hp : lookupPlayer s u = some p)
    (hin : p.balance - a < 0) :
    chargeCore s u g a d ts =
      ⟨⟨200, Body.errBody "INSUFFICIENT_FUNDS"⟩, s, false⟩ := by
  unfold chargeCore
  rw [getOrCreatePlayer_present s u ts p hp]
  dsimp only
  rw [if_pos hin]

theorem chargeCore_present_ok (s : Store) (u g : String) (a : Int)
    (d ts : String) (p : Player) (hp : lookupPlayer s u = some p)
    (hok : ¬ p.balance - a < 0) :
    chargeCore s u g a d ts =
      ⟨⟨200, Body.okBalance (p.balance - a)⟩,
        setPlayer s u (appendHistory { p with balance := p.balance - a }
          { ts := ts, game := g, delta := -a, desc := d }), true⟩ := by
  unfold chargeCore
  rw [getOrCreatePlayer_present s u ts p hp]
  dsimp only
  rw [if_neg hok]
  rfl

theorem chargeCore_absent_refused (s : Store) (u g : String) (a : Int)
    (d ts : String) (hp : lookupPlayer s u = none)
    (hin : (1000 : Int) - a < 0) :
    chargeCore s u g a d ts =
      ⟨⟨200, Body.errBody "INSUFFICIENT_FUNDS"⟩,
        setPlayer s u (defaultPlayer ts), true⟩ := by
  unfold chargeCore
  rw [getOrCreatePlayer_absent s u ts hp]
  dsimp only
  rw [if_pos (show (defaultPlayer ts).balance - a < 0 from hin)]

theorem chargeCore_absent_ok (s : Store) (u g : String) (a : Int)
    (d ts : String) (hp : lookupPlayer s u = none)
    (hok : ¬ (1000 : Int) - a < 0) :
    chargeCore s u g a d ts =
      ⟨⟨200, Body.okBalance (1000 - a)⟩,
        setPlayer (setPlayer s u (defaultPlayer ts)) u
          (appendHistory { defaultPlayer ts with balance := 1000 - a }
            { ts := ts, game := g, delta := -a, desc := d }), true⟩ := by
  unfold chargeCore
  rw [getOrCreatePlayer_absent s u ts hp]
  dsimp only
  rw [if_neg (show ¬ (defaultPlayer ts).balance - a < 0 from hok)]
  rfl

theorem payoutCore_present (s : Store) (u g : String) (a : Int)
    (d ts : String) (p : Player) (hp : lookupPlayer s u = some p) :
    payoutCore s u g a d ts =
      ⟨⟨200, Body.okBalance (p.balance + a)⟩,
        setPlayer s u (appendHistory { p with balance := p.balance + a }
          { ts := ts, game := g, delta := a, desc := d }), true⟩ := by
  unfold payoutCore
  rw [getOrCreatePlayer_present s u ts p hp]
  rfl

theorem saveCore_present (s : Store) (u : String) (b : Int) (ts : String)
    (p : Player) (hp : lookupPlayer s u = some p) :
    saveCore s u b ts =
      ⟨⟨200, Body.okUnit⟩,
        setPlayer s u (appendHistory { p with balance := b }
          { ts := ts, game := "manual-save", delta := 0,
            desc := "session save" }), true⟩ := by
  unfold saveCore
  rw [getOrCreatePlayer_present s u ts p hp]

theorem setBalanceCore_present (s : Store) (u : String) (b : Int)
    (note ts : String) (p : Player) (hp : lookupPlayer s u = some p) :
    setBalanceCore s u b note ts =
      ⟨⟨200, Body.okBalance b⟩,
        setPlayer s u (appendHistory { p with balance := b }
          { ts := ts, game := "admin-adjust", delta := b - p.balance,
            desc := note }), true⟩ := by
  unfold setBalanceCore
  rw [getOrCreatePlayer_present s u ts p hp]
  rfl

theorem saveCore_absent (s : Store) (u : String) (b : Int) (ts : String)
    (h : lookupPlayer s u = none) :
    saveCore s u b ts =
      ⟨⟨200, Body.okUnit⟩,
        setPlayer (setPlayer s u (defaultPlayer ts)) u
          (appendHistory { defaultPlayer ts with balance := b }
            { ts := ts, game := "manual-save", delta := 0,
              desc := "session save" }), true⟩ := by
  unfold saveCore
  rw [getOrCreatePlayer_absent s u ts h]

theorem payoutCore_absent (s : Store) (u g : String) (a : Int)
    (d ts : String) (h : lookupPlayer s u = none) :
    payoutCore s u g a d ts =
      ⟨⟨200, Body.okBalance (1000 + a)⟩,
        setPlayer (setPlayer s u (defaultPlayer ts)) u
          (appendHistory { defaultPlayer ts with balance := 1000 + a }
            { ts := ts, game := g, delta := a, desc := d }), true⟩ := by
  unfold payoutCore
  rw [getOrCreatePlayer_absent s u ts h]
  rfl

theorem setBalanceCore_absent (s : Store) (u : String) (b : Int)
    (note ts : String) (h : lookupPlayer s u = none) :
    setBalanceCore s u b note ts =
      ⟨⟨200, Body.okBalance b⟩,
        setPlayer (setPlayer s u (defaultPlayer ts)) u
          (appendHistory { defaultPlayer ts with balance := b }
            { ts := ts, game := "admin-adjust", delta := b - 1000,
              desc := note }), true⟩ := by
  unfold setBalanceCore
  rw [getOrCreatePlayer_absent s u ts h]
  rfl

theorem chargeHandler_eq_core (s : Store) (u? g? a? d? : Option String)
    (ts : String) (a : Int) (hu : ¬ trimmedField u? = "")
    (ha : parseInteger ((a?).getD "") = some a) (hpos : 0 < a) :
    chargeHandler s u? g? a? d? ts =
      chargeCore s (trimmedField u?) (fieldOr g? "unknown") a
        (fieldOr d? "game charge") ts := by
  unfold chargeHandler
  dsimp only
  rw [if_neg hu, ha]
  dsimp only
  rw [if_neg (by omega)]

theorem payoutHandler_eq_core (s : Store) (u? g? a? d? : Option String)
    (ts : String) (a : Int) (hu : ¬ trimmedField u? = "")
    (ha : parseInteger ((a?).getD "") = some a) (hpos : 0 < a) :
    payoutHandler s u? g? a? d? ts =
      payoutCore s (trimmedField u?) (fieldOr g? "unknown") a
        (fieldOr d? "game payout") ts := by
  unfold payoutHandler
  dsimp only
  rw [if_neg hu, ha]
  dsimp only
  rw [if_neg (by omega)]

theorem saveHandler_eq_core (s : Store) (u? b? : Option String)
    (ts : String) (b : Int) (hu : ¬ trimmedField u? = "")
    (hb : parseInteger ((b?).getD "") = some b) (hnn : 0 ≤ b) :
    saveHandler s u? b? ts = saveCore s (trimmedField u?) b ts := by
  unfold saveHandler
  dsimp only
  rw [if_neg hu, hb]
  dsimp only
  rw [if_neg (by omega)]

theorem setBalanceHandler_eq_core (s : Store) (u? b? n? : Option String)
    (ts : String) (b : Int) (hu : ¬ trimmedField u? = "")
    (hb : parseInteger ((b?).getD "") = some b) (hnn : 0 ≤ b) :
    setBalanceHandler s u? b? n? ts =
      setBalanceCore s (trimmedField u?) b (fieldOr n? "admin adjustment") ts := by
  unfold setBalanceHandler
  dsimp only
  rw [if_neg hu, hb]
  dsimp only
  rw [if_neg (by omega)]

theorem chargeHandler_invalid_amount (s : Store) (u? g? a? d? : Option String)
    (ts : String) (hu : ¬ trimmedField u? = "")
    (ha : parseInteger ((a?).getD "") = none ∨
      ∃ a, parseInteger ((a?).getD "") = some a ∧ a ≤ 0) :
    chargeHandler s u? g? a? d? ts =
      ⟨⟨400, Body.errBody "INVALID_AMOUNT"⟩, s, false⟩ := by
  unfold chargeHandler
  dsimp only
  rw [if_neg hu]
  rcases ha with h | ⟨a, h, hle⟩
  · rw [h]
  · rw [h]
    dsimp only
    rw [if_pos hle]

theorem payoutHandler_invalid_amount (s : Store) (u? g? a? d? : Option String)
    (ts : String) (hu : ¬ trimmedField u? = "")
    (ha : parseInteger ((a?).getD "") = none ∨
      ∃ a, parseInteger ((a?).getD "") = some a ∧ a ≤ 0) :
    payoutHandler s u? g? a? d? ts =
      ⟨⟨400, Body.errBody "INVALID_AMOUNT"⟩, s, false⟩ := by
  unfold payoutHandler
  dsimp only
  rw [if_neg hu]
  rcases ha with h | ⟨a, h, hle⟩
  · rw [h]
  · rw [h]
    dsimp only
    rw [if_pos hle]

theorem saveHandler_invalid_balance (s : Store) (u? b? : Option String)
    (ts : String) (hu : ¬ trimmedField u? = "")
    (hb : parseInteger ((b?).getD "") = none ∨
      ∃ b, parseInteger ((b?).getD "") = some b ∧ b < 0) :
    saveHandler s u? b? ts =
      ⟨⟨400, Body.errBody "INVALID_BALANCE"⟩, s, false⟩ := by
  unfold saveHandler
  dsimp only
  rw [if_neg hu]
  rcases hb with h | ⟨b, h, hlt⟩
  · rw [h]
  · rw [h]
    dsimp only
    rw [if_pos hlt]

theorem chargeCore_status (s : Store) (u g : String) (a : Int)
    (d ts : String) : (chargeCore s u g a d ts).resp.status = 200 := by
  unfold chargeCore
  dsimp only
  split <;> rfl

theorem payoutCore_status (s : Store) (u g : String) (a : Int)
    (d ts : String) : (payoutCore s u g a d ts).resp.status = 200 := rfl

/-! ### Claim theorems -/

/-- Claim C1, as frozen, is false on the code: an INSUFFICIENT_FUNDS refusal
does not always leave the store unmodified and unpersisted.  Charging 1001 to
the absent username u of the empty store is refused, yet the call creates the
default record (modifying the store) and persists it, because
getOrCreatePlayer saves as a side effect of lazy creation. -/
theorem C1_counterexample :
    (chargeHandler ⟨[]⟩ (some "u") none (some "1001") none "t").resp =
      ⟨200, Body.errBody "INSUFFICIENT_FUNDS"⟩ ∧
    ¬ (chargeHandler ⟨[]⟩ (some "u") none (some "1001") none "t").store = ⟨[]⟩ ∧
    (chargeHandler ⟨[]⟩ (some "u") none (some "1001") none "t").persisted = true := by
  decide

/-- Claim C1 (amended): for a charge with positive integer amount whose debit
would drive the balance negative, the operation is refused with an
INSUFFICIENT_FUNDS outcome and the charge itself causes no store change and
no persist; when the username was already present the store is left entirely
unmodified and unpersisted, while for an absent username exactly the lazy
auto-creation of the default record (with its persist) happens. -/
theorem C1_amended_charge_refusal :
    (∀ (s : Store) (u? g? a? d? : Option String) (ts : String) (p : Player)
        (a : Int),
      ¬ trimmedField u? = "" →
      lookupPlayer s (trimmedField u?) = some p →
      parseInteger ((a?).getD "") = some a → 0 < a → p.balance - a < 0 →
      chargeHandler s u? g? a? d? ts =
        ⟨⟨200, Body.errBody "INSUFFICIENT_FUNDS"⟩, s, false⟩) ∧
    (∀ (s : Store) (u? g? a? d? : Option String) (ts : String) (a : Int),
      ¬ trimmedField u? = "" →
      lookupPlayer s (trimmedField u?) = none →
      parseInteger ((a?).getD "") = some a → 0 < a → (1000 : Int) - a < 0 →
      chargeHandler s u? g? a? d? ts =
        ⟨⟨200, Body.errBody "INSUFFICIENT_FUNDS"⟩,
          setPlayer s (trimmedField u?) (defaultPlayer ts), true⟩) := by
  constructor
  · intro s u? g? a? d? ts p a hu hp ha hpos hin
    rw [chargeHandler_eq_core s u? g? a? d? ts a hu ha hpos]
    exact chargeCore_present_refused _ _ _ _ _ _ p hp hin
  · intro s u? g? a? d? ts a hu hp ha hpos hin
    rw [chargeHandler_eq_core s u? g? a? d? ts a hu ha hpos]
    exact chargeCore_absent_refused _ _ _ _ _ _ hp hin

/-- Witness for the amended C1 at concrete inputs: a present player with
balance 5 charged 10, and the empty store charged 1001 under username v. -/
theorem C1_amended_witness :
    chargeHandler ⟨[("u", ⟨5, []⟩)]⟩ (some "u") none (some "10") none "t" =
      ⟨⟨200, Body.errBody "INSUFFICIENT_FUNDS"⟩, ⟨[("u", ⟨5, []⟩)]⟩, false⟩ ∧
    chargeHandler ⟨[]⟩ (some "v") none (some "1001") none "t" =
      ⟨⟨200, Body.errBody "INSUFFICIENT_FUNDS"⟩,
        setPlayer ⟨[]⟩ (trimmedField (some "v")) (defaultPlayer "t"), true⟩ :=
  ⟨C1_amended_charge_refusal.1 ⟨[("u", ⟨5, []⟩)]⟩ (some "u") none (some "10")
      none "t" ⟨5, []⟩ 10 (by decide) (by decide) (by decide) (by decide)
      (by decide),
    C1_amended_charge_refusal.2 ⟨[]⟩ (some "v") none (some "1001") none "t"
      1001 (by decide) (by decide) (by decide) (by decide) (by decide)⟩

/-- Claim C2: the first operation referencing an absent username creates a
record with balance 1000 and a one-entry history whose single entry is the
synthetic system entry with delta 0 and desc auto-created profile. -/
theorem C2_new_player_default (s : Store) (u ts : String)
    (h : lookupPlayer s u = none) :
    (getOrCreatePlayer s u ts).1.balance = 1000 ∧
    (getOrCreatePlayer s u ts).1.history =
      [{ ts := ts, game := "system", delta := 0,
         desc := "auto-created profile" }] ∧
    (getOrCreatePlayer s u ts).1.history.length = 1 ∧
    lookupPlayer (getOrCreatePlayer s u ts).2.1 u =
      some (getOrCreatePlayer s u ts).1 := by
  rw [getOrCreatePlayer_absent s u ts h]
  exact ⟨rfl, rfl, rfl, lookupPlayer_setPlayer_self s u (defaultPlayer ts)⟩

/-- Witness for C2: creating username u in the empty store. -/
theorem C2_witness :
    (getOrCreatePlayer ⟨[]⟩ "u" "t").1.balance = 1000 ∧
    (getOrCreatePlayer ⟨[]⟩ "u" "t").1.history =
      [{ ts := "t", game := "system", delta := 0,
         desc := "auto-created profile" }] ∧
    (getOrCreatePlayer ⟨[]⟩ "u" "t").1.history.length = 1 ∧
    lookupPlayer (getOrCreatePlayer ⟨[]⟩ "u" "t").2.1 "u" =
      some (getOrCreatePlayer ⟨[]⟩ "u" "t").1 :=
  C2_new_player_default ⟨[]⟩ "u" "t" rfl

/-- Claim C3: starting from any store whose balances are all non-negative,
any sequence of charge, save, payout and admin set-balance requests keeps
every stored balance non-negative, and a charge whose amount exceeds the
present player's balance is refused with INSUFFICIENT_FUNDS leaving the
store (hence the balance) unchanged. -/
theorem C3_balance_nonneg :
    (∀ (s : Store) (ops : List Op), allNonneg s → allNonneg (applyOps s ops)) ∧
    (∀ (s : Store) (u? g? a? d? : Option String) (ts : String) (p : Player)
        (a : Int),
      ¬ trimmedField u? = "" →
      lookupPlayer s (trimmedField u?) = some p →
      parseInteger ((a?).getD "") = some a → 0 < a → p.balance < a →
      chargeHandler s u? g? a? d? ts =
        ⟨⟨200, Body.errBody "INSUFFICIENT_FUNDS"⟩, s, false⟩) := by
  constructor
  · exact fun s ops hs => applyOps_allNonneg s ops hs
  · intro s u? g? a? d? ts p a hu hp ha hpos hlt
    rw [chargeHandler_eq_core s u? g? a? d? ts a hu ha hpos]
    exact chargeCore_present_refused _ _ _ _ _ _ p hp (by omega)

/-- Witness for C3: a concrete request sequence on a one-player store, and a
concrete over-large charge. -/
theorem C3_witness :
    allNonneg (applyOps ⟨[("u", ⟨5, []⟩)]⟩
      [Op.charge (some "u") none (some "3") none "t1",
       Op.payout (some "u") none (some "40") none "t2",
       Op.save (some "u") (some "7") "t3",
       Op.setBalance (some "u") (some "1500") none "t4"]) ∧
    chargeHandler ⟨[("u", ⟨5, []⟩)]⟩ (some "u") none (some "6") none "t" =
      ⟨⟨200, Body.errBody "INSUFFICIENT_FUNDS"⟩, ⟨[("u", ⟨5, []⟩)]⟩, false⟩ :=
  ⟨C3_balance_nonneg.1 ⟨[("u", ⟨5, []⟩)]⟩
      [Op.charge (some "u") none (some "3") none "t1",
       Op.payout (some "u") none (some "40") none "t2",
       Op.save (some "u") (some "7") "t3",
       Op.setBalance (some "u") (some "1500") none "t4"] (by decide),
    C3_balance_nonneg.2 ⟨[("u", ⟨5, []⟩)]⟩ (some "u") none (some "6") none "t"
      ⟨5, []⟩ 6 (by decide) (by decide) (by decide) (by decide) (by decide)⟩

theorem deleteUserHandler_resp (s : Store) (u? : Option String)
    (hu : ¬ trimmedField u? = "") :
    (deleteUserHandler s u?).resp = ⟨200, Body.okUnit⟩ := by
  unfold deleteUserHandler
  dsimp only
  rw [if_neg hu]
  split <;> rfl

theorem deleteUserHandler_lookup (s : Store) (u? : Option String)
    (hu : ¬ trimmedField u? = "") :
    lookupPlayer (deleteUserHandler s u?).store (trimmedField u?) = none := by
  unfold deleteUserHandler
  dsimp only
  rw [if_neg hu]
  split
  · exact lookupPlayer_removePlayer_self s (trimmedField u?)
  · next h => simpa using h

theorem deleteUserHandler_absent (s : Store) (u? : Option String)
    (hu : ¬ trimmedField u? = "")
    (h : lookupPlayer s (trimmedField u?) = none) :
    deleteUserHandler s u? = ⟨⟨200, Body.okUnit⟩, s, false⟩ := by
  unfold deleteUserHandler
  dsimp only
  rw [if_neg hu, h]
  rfl

theorem userDetailHandler_absent (s : Store) (u? : Option String)
    (ts : String) (hu : ¬ trimmedField u? = "")
    (h : lookupPlayer s (trimmedField u?) = none) :
    userDetailHandler s u? ts =
      ⟨⟨200, Body.okDetail (trimmedField u?) 1000
          [{ ts := ts, game := "system", delta := 0,
             desc := "auto-created profile" }]⟩,
        setPlayer s (trimmedField u?) (defaultPlayer ts), true⟩ := by
  unfold userDetailHandler
  dsimp only
  rw [if_neg hu, getOrCreatePlayer_absent _ _ _ h]
  rfl

theorem userDetailHandler_present (s : Store) (u? : Option String)
    (ts : String) (p : Player) (hu : ¬ trimmedField u? = "")
    (hp : lookupPlayer s (trimmedField u?) = some p) :
    userDetailHandler s u? ts =
      ⟨⟨200, Body.okDetail (trimmedField u?) p.balance p.history⟩,
        s, true⟩ := by
  unfold userDetailHandler
  dsimp only
  rw [if_neg hu, getOrCreatePlayer_present _ _ _ p hp]

theorem saveCore_resp (s : Store) (u : String) (b : Int) (ts : String) :
    (saveCore s u b ts).resp = ⟨200, Body.okUnit⟩ := rfl

/-- Claim C4, as frozen, is false for a username absent before the call: a
successful save on the empty store leaves a history of length 2 (the
synthetic creation entry plus the manual-save entry), not length 0 + 1. -/
theorem C4_counterexample :
    lookupPlayer ⟨[]⟩ "u" = none ∧
    (saveHandler ⟨[]⟩ (some "u") (some "5") "t").resp = ⟨200, Body.okUnit⟩ ∧
    (lookupPlayer (saveHandler ⟨[]⟩ (some "u") (some "5") "t").store "u").map
      (fun p => p.history.length) = some 2 := by
  decide

/-- Claim C4 (amended): for every successful mutating call (save, charge,
payout, admin set-balance) on a username already present in the store with
record p, the record afterward has history p.history with exactly one entry
appended, so its length grows by exactly one and all prior entries are
unaltered and in their original order; for a username absent before the call
the resulting history instead has length 2 (creation entry plus the
operation's own entry). -/
theorem C4_history_append_amended :
    (∀ (s : Store) (u? b? : Option String) (ts : String) (p : Player)
        (b : Int),
      ¬ trimmedField u? = "" → lookupPlayer s (trimmedField u?) = some p →
      parseInteger ((b?).getD "") = some b → 0 ≤ b →
      ∃ e p2,
        lookupPlayer (saveHandler s u? b? ts).store (trimmedField u?) =
          some p2 ∧
        p2.history = p.history ++ [e] ∧
        p2.history.length = p.history.length + 1) ∧
    (∀ (s : Store) (u? g? a? d? : Option String) (ts : String) (p : Player)
        (a : Int),
      ¬ trimmedField u? = "" → lookupPlayer s (trimmedField u?) = some p →
      parseInteger ((a?).getD "") = some a → 0 < a → ¬ p.balance - a < 0 →
      ∃ e p2,
        lookupPlayer (chargeHandler s u? g? a? d? ts).store (trimmedField u?) =
          some p2 ∧
        p2.history = p.history ++ [e] ∧
        p2.history.length = p.history.length + 1) ∧
    (∀ (s : Store) (u? g? a? d? : Option String) (ts : String) (p : Player)
        (a : Int),
      ¬ trimmedField u? = "" → lookupPlayer s (trimmedField u?) = some p →
      parseInteger ((a?).getD "") = some a → 0 < a →
      ∃ e p2,
        lookupPlayer (payoutHandler s u? g? a? d? ts).store (trimmedField u?) =
          some p2 ∧
        p2.history = p.history ++ [e] ∧
        p2.history.length = p.history.length + 1) ∧
    (∀ (s : Store) (u? b? n? : Option String) (ts : String) (p : Player)
        (b : Int),
      ¬ trimmedField u? = "" → lookupPlayer s (trimmedField u?) = some p →
      parseInteger ((b?).getD "") = some b → 0 ≤ b →
      ∃ e p2,
        lookupPlayer (setBalanceHandler s u? b? n? ts).store
          (trimmedField u?) = some p2 ∧
        p2.history = p.history ++ [e] ∧
        p2.history.length = p.history.length + 1) ∧
    (∀ (s : Store) (u? b? : Option String) (ts : String) (b : Int),
      ¬ trimmedField u? = "" → lookupPlayer s (trimmedField u?) = none →
      parseInteger ((b?).getD "") = some b → 0 ≤ b →
      ∃ e p2,
        lookupPlayer (saveHandler s u? b? ts).store (trimmedField u?) =
          some p2 ∧
        p2.history = [{ ts := ts, game := "system", delta := 0,
                        desc := "auto-created profile" }] ++ [e] ∧
        p2.history.length = 2) ∧
    (∀ (s : Store) (u? g? a? d? : Option String) (ts : String) (a : Int),
      ¬ trimmedField u? = "" → lookupPlayer s (trimmedField u?) = none →
      parseInteger ((a?).getD "") = some a → 0 < a →
      ¬ (1000 : Int) - a < 0 →
      ∃ e p2,
        lookupPlayer (chargeHandler s u? g? a? d? ts).store
          (trimmedField u?) = some p2 ∧
        p2.history = [{ ts := ts, game := "system", delta := 0,
                        desc := "auto-created profile" }] ++ [e] ∧
        p2.history.length = 2) ∧
    (∀ (s : Store) (u? g? a? d? : Option String) (ts : String) (a : Int),
      ¬ trimmedField u? = "" → lookupPlayer s (trimmedField u?) = none →
      parseInteger ((a?).getD "") = some a → 0 < a →
      ∃ e p2,
        lookupPlayer (payoutHandler s u? g? a? d? ts).store
          (trimmedField u?) = some p2 ∧
        p2.history = [{ ts := ts, game := "system", delta := 0,
                        desc := "auto-created profile" }] ++ [e] ∧
        p2.history.length = 2) ∧
    (∀ (s : Store) (u? b? n? : Option String) (ts : String) (b : Int),
      ¬ trimmedField u? = "" → lookupPlayer s (trimmedField u?) = none →
      parseInteger ((b?).getD "") = some b → 0 ≤ b →
      ∃ e p2,
        lookupPlayer (setBalanceHandler s u? b? n? ts).store
          (trimmedField u?) = some p2 ∧
        p2.history = [{ ts := ts, game := "system", delta := 0,
                        desc := "auto-created profile" }] ++ [e] ∧
        p2.history.length = 2) := by
  refine ⟨?_, ?_, ?_, ?_, ?_, ?_, ?_, ?_⟩
  · intro s u? b? ts p b hu hp hb hnn
    rw [saveHandler_eq_core s u? b? ts b hu hb hnn,
        saveCore_present s (trimmedField u?) b ts p hp]
    refine ⟨_, _, lookupPlayer_setPlayer_self _ _ _, rfl, ?_⟩
    simp [appendHistory]
  · intro s u? g? a? d? ts p a hu hp ha hpos hok
    rw [chargeHandler_eq_core s u? g? a? d? ts a hu ha hpos,
        chargeCore_present_ok s (trimmedField u?) _ a _ ts p hp hok]
    refine ⟨_, _, lookupPlayer_setPlayer_self _ _ _, rfl, ?_⟩
    simp [appendHistory]
  · intro s u? g? a? d? ts p a hu hp ha hpos
    rw [payoutHandler_eq_core s u? g? a? d? ts a hu ha hpos,
        payoutCore_present s (trimmedField u?) _ a _ ts p hp]
    refine ⟨_, _, lookupPlayer_setPlayer_self _ _ _, rfl, ?_⟩
    simp [appendHistory]
  · intro s u? b? n? ts p b hu hp hb hnn
    rw [setBalanceHandler_eq_core s u? b? n? ts b hu hb hnn,
        setBalanceCore_present s (trimmedField u?) b _ ts p hp]
    refine ⟨_, _, lookupPlayer_setPlayer_self _ _ _, rfl, ?_⟩
    simp [appendHistory]
  · intro s u? b? ts b hu hp hb hnn
    rw [saveHandler_eq_core s u? b? ts b hu hb hnn,
        saveCore_absent s (trimmedField u?) b ts hp]
    exact ⟨_, _, lookupPlayer_setPlayer_self _ _ _, rfl, rfl⟩
  · intro s u? g? a? d? ts a hu hp ha hpos hok
    rw [chargeHandler_eq_core s u? g? a? d? ts a hu ha hpos,
        chargeCore_absent_ok s (trimmedField u?) _ a _ ts hp hok]
    exact ⟨_, _, lookupPlayer_setPlayer_self _ _ _, rfl, rfl⟩
  · intro s u? g? a? d? ts a hu hp ha hpos
    rw [payoutHandler_eq_core s u? g? a? d? ts a hu ha hpos,
        payoutCore_absent s (trimmedField u?) _ a _ ts hp]
    exact ⟨_, _, lookupPlayer_setPlayer_self _ _ _, rfl, rfl⟩
  · intro s u? b? n? ts b hu hp hb hnn
    rw [setBalanceHandler_eq_core s u? b? n? ts b hu hb hnn,
        setBalanceCore_absent s (trimmedField u?) b _ ts hp]
    exact ⟨_, _, lookupPlayer_setPlayer_self _ _ _, rfl, rfl⟩

/-- Witness for the amended C4: the four operations each applied to a store
holding one player u with balance 100 and empty history, and each applied
to the empty store under the absent username w. -/
theorem C4_amended_witness :
    (∃ e p2,
      lookupPlayer (saveHandler ⟨[("u", ⟨100, []⟩)]⟩ (some "u") (some "7")
        "t").store (trimmedField (some "u")) = some p2 ∧
      p2.history = ([] : List HistoryEntry) ++ [e] ∧
      p2.history.length = ([] : List HistoryEntry).length + 1) ∧
    (∃ e p2,
      lookupPlayer (chargeHandler ⟨[("u", ⟨100, []⟩)]⟩ (some "u") none
        (some "30") none "t").store (trimmedField (some "u")) = some p2 ∧
      p2.history = ([] : List HistoryEntry) ++ [e] ∧
      p2.history.length = ([] : List HistoryEntry).length + 1) ∧
    (∃ e p2,
      lookupPlayer (payoutHandler ⟨[("u", ⟨100, []⟩)]⟩ (some "u") none
        (some "25") none "t").store (trimmedField (some "u")) = some p2 ∧
      p2.history = ([] : List HistoryEntry) ++ [e] ∧
      p2.history.length = ([] : List HistoryEntry).length + 1) ∧
    (∃ e p2,
      lookupPlayer (setBalanceHandler ⟨[("u", ⟨100, []⟩)]⟩ (some "u")
        (some "1500") none "t").store (trimmedField (some "u")) = some p2 ∧
      p2.history = ([] : List HistoryEntry) ++ [e] ∧
      p2.history.length = ([] : List HistoryEntry).length + 1) ∧
    (∃ e p2,
      lookupPlayer (saveHandler ⟨[]⟩ (some "w") (some "7") "t").store
        (trimmedField (some "w")) = some p2 ∧
      p2.history = [{ ts := "t", game := "system", delta := 0,
                      desc := "auto-created profile" }] ++ [e] ∧
      p2.history.length = 2) ∧
    (∃ e p2,
      lookupPlayer (chargeHandler ⟨[]⟩ (some "w") none (some "30") none
        "t").store (trimmedField (some "w")) = some p2 ∧
      p2.history = [{ ts := "t", game := "system", delta := 0,
                      desc := "auto-created profile" }] ++ [e] ∧
      p2.history.length = 2) ∧
    (∃ e p2,
      lookupPlayer (payoutHandler ⟨[]⟩ (some "w") none (some "25") none
        "t").store (trimmedField (some "w")) = some p2 ∧
      p2.history = [{ ts := "t", game := "system", delta := 0,
                      desc := "auto-created profile" }] ++ [e] ∧
      p2.history.length = 2) ∧
    (∃ e p2,
      lookupPlayer (setBalanceHandler ⟨[]⟩ (some "w") (some "1500") none
        "t").store (trimmedField (some "w")) = some p2 ∧
      p2.history = [{ ts := "t", game := "system", delta := 0,
                      desc := "auto-created profile" }] ++ [e] ∧
      p2.history.length = 2) :=
  ⟨C4_history_append_amended.1 ⟨[("u", ⟨100, []⟩)]⟩ (some "u") (some "7") "t"
      ⟨100, []⟩ 7 (by decide) (by decide) (by decide) (by decide),
    C4_history_append_amended.2.1 ⟨[("u", ⟨100, []⟩)]⟩ (some "u") none
      (some "30") none "t" ⟨100, []⟩ 30 (by decide) (by decide) (by decide)
      (by decide) (by decide),
    C4_history_append_amended.2.2.1 ⟨[("u", ⟨100, []⟩)]⟩ (some "u") none
      (some "25") none "t" ⟨100, []⟩ 25 (by decide) (by decide) (by decide)
      (by decide),
    C4_history_append_amended.2.2.2.1 ⟨[("u", ⟨100, []⟩)]⟩ (some "u")
      (some "1500") none "t" ⟨100, []⟩ 1500 (by decide) (by decide)
      (by decide) (by decide),
    C4_history_append_amended.2.2.2.2.1 ⟨[]⟩ (some "w") (some "7") "t" 7
      (by decide) (by decide) (by decide) (by decide),
    C4_history_append_amended.2.2.2.2.2.1 ⟨[]⟩ (some "w") none (some "30")
      none "t" 30 (by decide) (by decide) (by decide) (by decide)
      (by decide),
    C4_history_append_amended.2.2.2.2.2.2.1 ⟨[]⟩ (some "w") none
      (some "25") none "t" 25 (by decide) (by decide) (by decide)
      (by decide),
    C4_history_append_amended.2.2.2.2.2.2.2 ⟨[]⟩ (some "w") (some "1500")
      none "t" 1500 (by decide) (by decide) (by decide) (by decide)⟩

/-- Claim C5: admin delete is idempotent: both of two successive delete
calls on the same username respond 200 ok true, the second is a no-op on an
already-absent key, and a username re-referenced after deletion is recreated
as a fresh default profile (balance 1000, only the synthetic creation
entry, none of the old history). -/
theorem C5_delete_idempotent (s : Store) (u? : Option String) (ts : String)
    (hu : ¬ trimmedField u? = "") :
    (deleteUserHandler s u?).resp = ⟨200, Body.okUnit⟩ ∧
    (deleteUserHandler (deleteUserHandler s u?).store u?).resp =
      ⟨200, Body.okUnit⟩ ∧
    lookupPlayer (deleteUserHandler s u?).store (trimmedField u?) = none ∧
    (deleteUserHandler (deleteUserHandler s u?).store u?).store =
      (deleteUserHandler s u?).store ∧
    (getOrCreatePlayer (deleteUserHandler s u?).store (trimmedField u?)
      ts).1.balance = 1000 ∧
    (getOrCreatePlayer (deleteUserHandler s u?).store (trimmedField u?)
      ts).1.history =
      [{ ts := ts, game := "system", delta := 0,
         desc := "auto-created profile" }] := by
  have h1 := deleteUserHandler_lookup s u? hu
  have h2 := deleteUserHandler_absent (deleteUserHandler s u?).store u? hu h1
  refine ⟨deleteUserHandler_resp s u? hu, ?_, h1, ?_, ?_, ?_⟩
  · rw [h2]
  · rw [h2]
  · rw [getOrCreatePlayer_absent _ _ _ h1]
    rfl
  · rw [getOrCreatePlayer_absent _ _ _ h1]
    rfl

/-- Witness for C5: deleting username u from a one-player store. -/
theorem C5_witness :
    (deleteUserHandler ⟨[("u", ⟨5, []⟩)]⟩ (some "u")).resp =
      ⟨200, Body.okUnit⟩ ∧
    (deleteUserHandler (deleteUserHandler ⟨[("u", ⟨5, []⟩)]⟩
      (some "u")).store (some "u")).resp = ⟨200, Body.okUnit⟩ ∧
    lookupPlayer (deleteUserHandler ⟨[("u", ⟨5, []⟩)]⟩ (some "u")).store
      (trimmedField (some "u")) = none ∧
    (deleteUserHandler (deleteUserHandler ⟨[("u", ⟨5, []⟩)]⟩
      (some "u")).store (some "u")).store =
      (deleteUserHandler ⟨[("u", ⟨5, []⟩)]⟩ (some "u")).store ∧
    (getOrCreatePlayer (deleteUserHandler ⟨[("u", ⟨5, []⟩)]⟩
      (some "u")).store (trimmedField (some "u")) "t").1.balance = 1000 ∧
    (getOrCreatePlayer (deleteUserHandler ⟨[("u", ⟨5, []⟩)]⟩
      (some "u")).store (trimmedField (some "u")) "t").1.history =
      [{ ts := "t", game := "system", delta := 0,
         desc := "auto-created profile" }] :=
  C5_delete_idempotent ⟨[("u", ⟨5, []⟩)]⟩ (some "u") "t" (by decide)

/-- Claim C6: admin set-balance with a non-negative integer newBalance on a
present player appends a history entry with game admin-adjust and delta
equal to newBalance minus the balance before the call, and sets the balance
to newBalance. -/
theorem C6_admin_set_balance_delta (s : Store) (u? b? n? : Option String)
    (ts : String) (p : Player) (b : Int)
    (hu : ¬ trimmedField u? = "")
    (hp : lookupPlayer s (trimmedField u?) = some p)
    (hb : parseInteger ((b?).getD "") = some b) (hnn : 0 ≤ b) :
    (setBalanceHandler s u? b? n? ts).resp = ⟨200, Body.okBalance b⟩ ∧
    lookupPlayer (setBalanceHandler s u? b? n? ts).store (trimmedField u?) =
      some { balance := b,
             history := p.history ++
               [{ ts := ts, game := "admin-adjust", delta := b - p.balance,
                  desc := fieldOr n? "admin adjustment" }] } := by
  rw [setBalanceHandler_eq_core s u? b? n? ts b hu hb hnn,
      setBalanceCore_present s (trimmedField u?) b _ ts p hp]
  exact ⟨rfl, lookupPlayer_setPlayer_self s (trimmedField u?) _⟩

/-- Witness for C6, at the spec's own example: setting 1500 on a player at
balance 1000 appends an entry with delta 500. -/
theorem C6_witness :
    (setBalanceHandler ⟨[("u", ⟨1000, []⟩)]⟩ (some "u") (some "1500") none
      "t").resp = ⟨200, Body.okBalance 1500⟩ ∧
    lookupPlayer (setBalanceHandler ⟨[("u", ⟨1000, []⟩)]⟩ (some "u")
      (some "1500") none "t").store (trimmedField (some "u")) =
      some { balance := 1500,
             history := ([] : List HistoryEntry) ++
               [{ ts := "t", game := "admin-adjust", delta := 1500 - 1000,
                  desc := fieldOr none "admin adjustment" }] } :=
  C6_admin_set_balance_delta ⟨[("u", ⟨1000, []⟩)]⟩ (some "u") (some "1500")
    none "t" ⟨1000, []⟩ 1500 (by decide) (by decide) (by decide) (by decide)

theorem charge_absent_result (s : Store) (u? g? a? d? : Option String)
    (ts u : String) (a : Int) (htrim : trimmedField u? = u)
    (hu : ¬ u = "") (h : lookupPlayer s u = none)
    (ha : parseInteger ((a?).getD "") = some a) (hpos : 0 < a)
    (hok : ¬ (1000 : Int) - a < 0) :
    (chargeHandler s u? g? a? d? ts).resp = ⟨200, Body.okBalance (1000 - a)⟩ ∧
    ∃ p, lookupPlayer (chargeHandler s u? g? a? d? ts).store u = some p ∧
      p.balance = 1000 - a := by
  subst htrim
  rw [chargeHandler_eq_core s u? g? a? d? ts a hu ha hpos,
      chargeCore_absent_ok s (trimmedField u?) _ a _ ts h hok]
  exact ⟨rfl, _, lookupPlayer_setPlayer_self _ _ _, rfl⟩

theorem payout_present_result (s : Store) (u? g? a? d? : Option String)
    (ts u : String) (a : Int) (p : Player) (htrim : trimmedField u? = u)
    (hu : ¬ u = "") (hp : lookupPlayer s u = some p)
    (ha : parseInteger ((a?).getD "") = some a) (hpos : 0 < a) :
    (payoutHandler s u? g? a? d? ts).resp =
      ⟨200, Body.okBalance (p.balance + a)⟩ ∧
    ∃ q, lookupPlayer (payoutHandler s u? g? a? d? ts).store u = some q ∧
      q.balance = p.balance + a := by
  subst htrim
  rw [payoutHandler_eq_core s u? g? a? d? ts a hu ha hpos,
      payoutCore_present s (trimmedField u?) _ a _ ts p hp]
  exact ⟨rfl, _, lookupPlayer_setPlayer_self _ _ _, rfl⟩

theorem charge_present_refused_result (s : Store)
    (u? g? a? d? : Option String) (ts u : String) (a : Int) (p : Player)
    (htrim : trimmedField u? = u) (hu : ¬ u = "")
    (hp : lookupPlayer s u = some p)
    (ha : parseInteger ((a?).getD "") = some a) (hpos : 0 < a)
    (hin : p.balance - a < 0) :
    chargeHandler s u? g? a? d? ts =
      ⟨⟨200, Body.errBody "INSUFFICIENT_FUNDS"⟩, s, false⟩ := by
  subst htrim
  rw [chargeHandler_eq_core s u? g? a? d? ts a hu ha hpos]
  exact chargeCore_present_refused _ _ _ _ _ _ p hp hin

/-- Claim C7: on any store where alice is absent, charging 200 yields
balance 800, then a payout of 50 yields 850, and a further charge of 1000
is refused with INSUFFICIENT_FUNDS leaving the balance at 850. -/
theorem C7_alice_scenario (s : Store) (ts1 ts2 ts3 : String)
    (h : lookupPlayer s "alice" = none) :
    (chargeHandler s (some "alice") none (some "200") none ts1).resp =
      ⟨200, Body.okBalance 800⟩ ∧
    (payoutHandler (chargeHandler s (some "alice") none (some "200") none
      ts1).store (some "alice") none (some "50") none ts2).resp =
      ⟨200, Body.okBalance 850⟩ ∧
    (chargeHandler (payoutHandler (chargeHandler s (some "alice") none
      (some "200") none ts1).store (some "alice") none (some "50") none
      ts2).store (some "alice") none (some "1000") none ts3).resp =
      ⟨200, Body.errBody "INSUFFICIENT_FUNDS"⟩ ∧
    (lookupPlayer (chargeHandler (payoutHandler (chargeHandler s
      (some "alice") none (some "200") none ts1).store (some "alice") none
      (some "50") none ts2).store (some "alice") none (some "1000") none
      ts3).store "alice").map Player.balance = some 850 := by
  obtain ⟨r1, p1, hl1, hb1⟩ := charge_absent_result s (some "alice") none
    (some "200") none ts1 "alice" 200 (by decide) (by decide) h (by decide)
    (by decide) (by decide)
  obtain ⟨r2, p2, hl2, hb2⟩ := payout_present_result _ (some "alice") none
    (some "50") none ts2 "alice" 50 p1 (by decide) (by decide) hl1
    (by decide) (by decide)
  have r3 := charge_present_refused_result _ (some "alice") none
    (some "1000") none ts3 "alice" 1000 p2 (by decide) (by decide) hl2
    (by decide) (by decide) (by omega)
  refine ⟨?_, ?_, ?_, ?_⟩
  · rw [r1]
    decide
  · rw [r2, hb1]
    decide
  · rw [r3]
  · rw [r3, hl2]
    exact congrArg some (by omega)

/-- Witness for C7 at the empty store. -/
theorem C7_witness :
    (chargeHandler ⟨[]⟩ (some "alice") none (some "200") none "t1").resp =
      ⟨200, Body.okBalance 800⟩ ∧
    (payoutHandler (chargeHandler ⟨[]⟩ (some "alice") none (some "200") none
      "t1").store (some "alice") none (some "50") none "t2").resp =
      ⟨200, Body.okBalance 850⟩ ∧
    (chargeHandler (payoutHandler (chargeHandler ⟨[]⟩ (some "alice") none
      (some "200") none "t1").store (some "alice") none (some "50") none
      "t2").store (some "alice") none (some "1000") none "t3").resp =
      ⟨200, Body.errBody "INSUFFICIENT_FUNDS"⟩ ∧
    (lookupPlayer (chargeHandler (payoutHandler (chargeHandler ⟨[]⟩
      (some "alice") none (some "200") none "t1").store (some "alice") none
      (some "50") none "t2").store (some "alice") none (some "1000") none
      "t3").store "alice").map Player.balance = some 850 :=
  C7_alice_scenario ⟨[]⟩ "t1" "t2" "t3" (by decide)

/-- Claim C8: with a valid username, an amount that fails to parse or is
not strictly positive makes charge and payout respond INVALID_AMOUNT with
HTTP status 400 and no state change, while an insufficient-funds refusal of
a charge is an HTTP 200 response with body ok false, INSUFFICIENT_FUNDS and
no state change: validation failures and the business-rule refusal use
different status classes. -/
theorem C8_status_asymmetry :
    (∀ (s : Store) (u? g? a? d? : Option String) (ts : String),
      ¬ trimmedField u? = "" →
      (parseInteger ((a?).getD "") = none ∨
        ∃ a, parseInteger ((a?).getD "") = some a ∧ a ≤ 0) →
      chargeHandler s u? g? a? d? ts =
        ⟨⟨400, Body.errBody "INVALID_AMOUNT"⟩, s, false⟩) ∧
    (∀ (s : Store) (u? g? a? d? : Option String) (ts : String),
      ¬ trimmedField u? = "" →
      (parseInteger ((a?).getD "") = none ∨
        ∃ a, parseInteger ((a?).getD "") = some a ∧ a ≤ 0) →
      payoutHandler s u? g? a? d? ts =
        ⟨⟨400, Body.errBody "INVALID_AMOUNT"⟩, s, false⟩) ∧
    (∀ (s : Store) (u? g? a? d? : Option String) (ts : String) (p : Player)
        (a : Int),
      ¬ trimmedField u? = "" →
      lookupPlayer s (trimmedField u?) = some p →
      parseInteger ((a?).getD "") = some a → 0 < a → p.balance - a < 0 →
      chargeHandler s u? g? a? d? ts =
        ⟨⟨200, Body.errBody "INSUFFICIENT_FUNDS"⟩, s, false⟩) := by
  refine ⟨?_, ?_, ?_⟩
  · intro s u? g? a? d? ts hu ha
    exact chargeHandler_invalid_amount s u? g? a? d? ts hu ha
  · intro s u? g? a? d? ts hu ha
    exact payoutHandler_invalid_amount s u? g? a? d? ts hu ha
  · intro s u? g? a? d? ts p a hu hp ha hpos hin
    rw [chargeHandler_eq_core s u? g? a? d? ts a hu ha hpos]
    exact chargeCore_present_refused _ _ _ _ _ _ p hp hin

/-- Witness for C8: a non-numeric charge amount, a zero payout amount, and
an over-large charge on a present player. -/
theorem C8_witness :
    chargeHandler ⟨[]⟩ (some "u") none (some "abc") none "t" =
      ⟨⟨400, Body.errBody "INVALID_AMOUNT"⟩, ⟨[]⟩, false⟩ ∧
    payoutHandler ⟨[]⟩ (some "u") none (some "0") none "t" =
      ⟨⟨400, Body.errBody "INVALID_AMOUNT"⟩, ⟨[]⟩, false⟩ ∧
    chargeHandler ⟨[("u", ⟨5, []⟩)]⟩ (some "u") none (some "10") none "t" =
      ⟨⟨200, Body.errBody "INSUFFICIENT_FUNDS"⟩, ⟨[("u", ⟨5, []⟩)]⟩, false⟩ :=
  ⟨C8_status_asymmetry.1 ⟨[]⟩ (some "u") none (some "abc") none "t"
      (by decide) (Or.inl (by decide)),
    C8_status_asymmetry.2.1 ⟨[]⟩ (some "u") none (some "0") none "t"
      (by decide) (Or.inr ⟨0, by decide, by decide⟩),
    C8_status_asymmetry.2.2 ⟨[("u", ⟨5, []⟩)]⟩ (some "u") none (some "10")
      none "t" ⟨5, []⟩ 10 (by decide) (by decide) (by decide) (by decide)
      (by decide)⟩

/-- Claim C9: user-detail on an absent username provisions it: the call
stores the default record, persists, and returns the full record including
history; on a present username it returns the stored record and leaves the
store unchanged. -/
theorem C9_user_detail (s : Store) (u? : Option String) (ts : String)
    (hu : ¬ trimmedField u? = "") :
    (lookupPlayer s (trimmedField u?) = none →
      userDetailHandler s u? ts =
        ⟨⟨200, Body.okDetail (trimmedField u?) 1000
            [{ ts := ts, game := "system", delta := 0,
               desc := "auto-created profile" }]⟩,
          setPlayer s (trimmedField u?) (defaultPlayer ts), true⟩ ∧
      lookupPlayer (userDetailHandler s u? ts).store (trimmedField u?) =
        some (defaultPlayer ts)) ∧
    (∀ p, lookupPlayer s (trimmedField u?) = some p →
      userDetailHandler s u? ts =
        ⟨⟨200, Body.okDetail (trimmedField u?) p.balance p.history⟩,
          s, true⟩) := by
  constructor
  · intro h
    refine ⟨userDetailHandler_absent s u? ts hu h, ?_⟩
    rw [userDetailHandler_absent s u? ts hu h]
    exact lookupPlayer_setPlayer_self _ _ _
  · intro p hp
    exact userDetailHandler_present s u? ts p hu hp

/-- Witness for C9: an absent username on the empty store, and a present
player with balance 7. -/
theorem C9_witness :
    (userDetailHandler ⟨[]⟩ (some "u") "t" =
        ⟨⟨200, Body.okDetail (trimmedField (some "u")) 1000
            [{ ts := "t", game := "system", delta := 0,
               desc := "auto-created profile" }]⟩,
          setPlayer ⟨[]⟩ (trimmedField (some "u")) (defaultPlayer "t"),
          true⟩ ∧
      lookupPlayer (userDetailHandler ⟨[]⟩ (some "u") "t").store
        (trimmedField (some "u")) = some (defaultPlayer "t")) ∧
    userDetailHandler ⟨[("v", ⟨7, []⟩)]⟩ (some "v") "t" =
      ⟨⟨200, Body.okDetail (trimmedField (some "v"))
          (Player.mk 7 []).balance (Player.mk 7 []).history⟩,
        ⟨[("v", ⟨7, []⟩)]⟩, true⟩ :=
  ⟨(C9_user_detail ⟨[]⟩ (some "u") "t" (by decide)).1 (by decide),
    (C9_user_detail ⟨[("v", ⟨7, []⟩)]⟩ (some "v") "t" (by decide)).2
      ⟨7, []⟩ (by decide)⟩

/-- Claim C10, as frozen, is false: rejection is not equivalent to parseInt
yielding NaN.  The string -5 parses to the integer -5 (not NaN), yet a
charge with amount -5 is rejected with INVALID_AMOUNT because of the
positivity check. -/
theorem C10_counterexample :
    parseInteger "-5" = some (-5) ∧
    ¬ parseInteger "-5" = none ∧
    (chargeHandler ⟨[]⟩ (some "u") none (some "-5") none "t").resp =
      ⟨400, Body.errBody "INVALID_AMOUNT"⟩ := by
  decide

/-- Claim C10 (amended): numeric validation is lenient: with a valid
username a charge or payout is rejected with INVALID_AMOUNT exactly when
parseInt base 10 of the amount yields NaN or the parsed integer is not
strictly positive, and a save is rejected with INVALID_BALANCE exactly when
parseInt yields NaN or the parsed integer is negative; a string with a
leading base-10 integer followed by other characters, such as 12.9 or
100abc, is accepted truncated to that leading integer (12, 100). -/
theorem C10_parse_leniency_amended :
    (∀ (s : Store) (u? g? a? d? : Option String) (ts : String),
      ¬ trimmedField u? = "" →
      ((chargeHandler s u? g? a? d? ts).resp =
          ⟨400, Body.errBody "INVALID_AMOUNT"⟩ ↔
        (parseInteger ((a?).getD "") = none ∨
          ∃ a, parseInteger ((a?).getD "") = some a ∧ a ≤ 0))) ∧
    (∀ (s : Store) (u? g? a? d? : Option String) (ts : String),
      ¬ trimmedField u? = "" →
      ((payoutHandler s u? g? a? d? ts).resp =
          ⟨400, Body.errBody "INVALID_AMOUNT"⟩ ↔
        (parseInteger ((a?).getD "") = none ∨
          ∃ a, parseInteger ((a?).getD "") = some a ∧ a ≤ 0))) ∧
    (∀ (s : Store) (u? b? : Option String) (ts : String),
      ¬ trimmedField u? = "" →
      ((saveHandler s u? b? ts).resp =
          ⟨400, Body.errBody "INVALID_BALANCE"⟩ ↔
        (parseInteger ((b?).getD "") = none ∨
          ∃ b, parseInteger ((b?).getD "") = some b ∧ b < 0))) ∧
    parseInteger "12.9" = some 12 ∧
    parseInteger "100abc" = some 100 := by
  refine ⟨?_, ?_, ?_, by decide, by decide⟩
  · intro s u? g? a? d? ts hu
    constructor
    · intro hresp
      by_cases hnone : parseInteger ((a?).getD "") = none
      · exact Or.inl hnone
      · obtain ⟨a, ha⟩ := Option.ne_none_iff_exists'.mp hnone
        by_cases hle : a ≤ 0
        · exact Or.inr ⟨a, ha, hle⟩
        · exfalso
          rw [chargeHandler_eq_core s u? g? a? d? ts a hu ha (by omega)]
            at hresp
          have hst := chargeCore_status s (trimmedField u?)
            (fieldOr g? "unknown") a (fieldOr d? "game charge") ts
          rw [hresp] at hst
          exact absurd hst (by decide)
    · intro ha
      rw [chargeHandler_invalid_amount s u? g? a? d? ts hu ha]
  · intro s u? g? a? d? ts hu
    constructor
    · intro hresp
      by_cases hnone : parseInteger ((a?).getD "") = none
      · exact Or.inl hnone
      · obtain ⟨a, ha⟩ := Option.ne_none_iff_exists'.mp hnone
        by_cases hle : a ≤ 0
        · exact Or.inr ⟨a, ha, hle⟩
        · exfalso
          rw [payoutHandler_eq_core s u? g? a? d? ts a hu ha (by omega)]
            at hresp
          have hst := payoutCore_status s (trimmedField u?)
            (fieldOr g? "unknown") a (fieldOr d? "game payout") ts
          rw [hresp] at hst
          exact absurd hst (by decide)
    · intro ha
      rw [payoutHandler_invalid_amount s u? g? a? d? ts hu ha]
  · intro s u? b? ts hu
    constructor
    · intro hresp
      by_cases hnone : parseInteger ((b?).getD "") = none
      · exact Or.inl hnone
      · obtain ⟨b, hb⟩ := Option.ne_none_iff_exists'.mp hnone
        by_cases hlt : b < 0
        · exact Or.inr ⟨b, hb, hlt⟩
        · exfalso
          rw [saveHandler_eq_core s u? b? ts b hu hb (by omega)] at hresp
          rw [saveCore_resp] at hresp
          exact absurd hresp (by decide)
    · intro hb
      rw [saveHandler_invalid_balance s u? b? ts hu hb]

/-- Witness for the amended C10: the rejection biconditionals instantiated
at a non-numeric charge amount, a zero payout amount, and a negative save
balance. -/
theorem C10_amended_witness :
    ((chargeHandler ⟨[]⟩ (some "u") none (some "abc") none "t").resp =
        ⟨400, Body.errBody "INVALID_AMOUNT"⟩ ↔
      (parseInteger ((some "abc").getD "") = none ∨
        ∃ a, parseInteger ((some "abc").getD "") = some a ∧ a ≤ 0)) ∧
    ((payoutHandler ⟨[]⟩ (some "u") none (some "0") none "t").resp =
        ⟨400, Body.errBody "INVALID_AMOUNT"⟩ ↔
      (parseInteger ((some "0").getD "") = none ∨
        ∃ a, parseInteger ((some "0").getD "") = some a ∧ a ≤ 0)) ∧
    ((saveHandler ⟨[]⟩ (some "u") (some "-3") "t").resp =
        ⟨400, Body.errBody "INVALID_BALANCE"⟩ ↔
      (parseInteger ((some "-3").getD "") = none ∨
        ∃ b, parseInteger ((some "-3").getD "") = some b ∧ b < 0)) :=
  ⟨C10_parse_leniency_amended.1 ⟨[]⟩ (some "u") none (some "abc") none "t"
      (by decide),
    C10_parse_leniency_amended.2.1 ⟨[]⟩ (some "u") none (some "0") none "t"
      (by decide),
    C10_parse_leniency_amended.2.2.1 ⟨[]⟩ (some "u") (some "-3") "t"
      (by decide)⟩
